import Mathlib

/-!
Shallow embedding of `src/app.py` (mentalHelthDetector), the affect-scoring
pipeline: keyword-lexicon tallying, emotion-profile adaptation with an
override rule and a neutral fallback, mood and stress scoring, secondary
feeling mapping, rule-based recommendations, and the `/analyze` boundary.

Modelling conventions:
* Python `float` arithmetic is embedded as exact rational (`ℚ`) arithmetic;
  all constants in the source are short decimals, represented exactly.
* The external emotion classifier and the external sentiment polarity
  function are black boxes in the source; they enter the embedding as
  parameters (`classifierOut : Option (List (String × ℚ))`, where `none`
  models an unavailable classifier or a raised invocation failure, and
  `polarity : ℚ` for `TextBlob(text).sentiment.polarity`).
* Python `dict` values are embedded as association lists in insertion
  order (`List (String × ℚ)`), with `dictGet`/`dictSet`/`dictDel`
  mirroring `d.get(k, 0)`, `d[k] = v`, `del d[k]`.
* Python `int(x)` on a float is truncation toward zero, embedded by
  `ratTrunc`.
-/

namespace MHD

set_option maxRecDepth 100000

/-- `hasPre s pat` : `pat` is a prefix of `s` (Python `s.startswith(pat)`). -/
def hasPre : List Char → List Char → Bool
  | _, [] => true
  | [], _ :: _ => false
  | a :: s, b :: p => a == b && hasPre s p

/-- `strContainsL s pat` : `pat` occurs as a contiguous substring of `s`. -/
def strContainsL : List Char → List Char → Bool
  | [], pat => hasPre [] pat
  | s@(_ :: t), pat => hasPre s pat || strContainsL t pat

/-- Python `pat in s` on strings: substring containment. -/
def containsSub (s pat : String) : Bool :=
  strContainsL s.data pat.data

/-- Python `s.lower()` (all source texts and keywords are ASCII),
character by character. -/
def lowerStr (s : String) : String :=
  String.mk (s.data.map Char.toLower)

/-- Python `sum(1 for k in kws if k in tl)`: number of keywords of the tier
occurring in the (already lowercased) text. -/
def countHits (tl : String) (kws : List String) : Nat :=
  (kws.filter (fun k => containsSub tl k)).length

/-- The mood/depression lexicon of `src/app.py` lines 32-36. -/
structure MoodLexicon where
  high_risk : List String
  medium_risk : List String
  low_risk : List String

/-- The stress lexicon of `src/app.py` lines 38-43. -/
structure StressLexicon where
  high : List String
  medium : List String
  low : List String

def DEPRESSION_KEYWORDS : MoodLexicon :=
  { high_risk := ["suicide", "kill myself", "end it all", "want to die", "better off dead", "harm myself", "no point living"]
  , medium_risk := ["hopeless", "empty", "numb", "cant go on", "cant cope", "worthless", "no future"]
  , low_risk := ["sad", "unhappy", "down", "crying", "exhausted", "sleepy", "lonely", "alone"] }

def STRESS_KEYWORDS : StressLexicon :=
  { high := ["overwhelmed", "cant handle", "breaking down", "drowning", "too much on my plate", "panic", "panic attack"]
  , medium := ["stressed", "anxious", "worried", "pressure", "nervous", "tense", "cant sleep", "deadline", "quizzes", "assignments", "piling up", "not working", "fed up", "amount of work"]
  , low := ["busy", "tired", "concerned", "apprehensive", "distracted", "coming up", "overbooked", "rushed"] }

/-- The emotion-profile record `{'dominant': ..., 'all_emotions': {...}}`. -/
structure EmotionProfile where
  dominant : String
  all_emotions : List (String × ℚ)
  deriving DecidableEq

/-- Python `d.get(k, dflt)` on an insertion-ordered dict. -/
def dictGet (d : List (String × ℚ)) (k : String) (dflt : ℚ) : ℚ :=
  match d.find? (fun p => p.1 == k) with
  | some p => p.2
  | none => dflt

/-- Python `d[k] = v`: update in place when present, else append. -/
def dictSet (d : List (String × ℚ)) (k : String) (v : ℚ) : List (String × ℚ) :=
  if d.any (fun p => p.1 == k) then
    d.map (fun p => if p.1 == k then (k, v) else p)
  else
    d ++ [(k, v)]

/-- Python `del d[k]` (total: removes every entry with key `k`). -/
def dictDel (d : List (String × ℚ)) (k : String) : List (String × ℚ) :=
  d.filter (fun p => ¬ p.1 == k)

/-- The keys of a dict, in insertion order. -/
def dictKeys (d : List (String × ℚ)) : List String :=
  d.map Prod.fst

/-- Python `int(x)` on a float: truncation toward zero. -/
def ratTrunc (x : ℚ) : ℤ :=
  if 0 ≤ x then ⌊x⌋ else ⌈x⌉

/-- The mood assessment record returned by `analyze_mood_level`. -/
structure MoodAssessment where
  level : String
  score : ℤ
  explanation : String
  label_class : String
  deriving DecidableEq

/-- The stress assessment record returned by `analyze_stress_level`. -/
structure StressAssessment where
  level : String
  score : ℤ
  explanation : String
  deriving DecidableEq

/-- `raw_low_mood` of `analyze_mood_level` (lines 105-131) as a function of
the lexicon tallies, the stress-keyword count, the emotion profile and the
sentiment polarity. -/
def mood_raw_low_mood (high med low stress_key_count : Nat)
    (emotions : EmotionProfile) (polarity : ℚ) : ℚ :=
  let keyword_score : ℚ := (high : ℚ) * 100 + (med : ℚ) * 40 + (low : ℚ) * 15
  let sadness_score := dictGet emotions.all_emotions "sadness" 0
  let anger_score := dictGet emotions.all_emotions "anger" 0
  let fear_score := dictGet emotions.all_emotions "fear" 0
  let neutral_score := dictGet emotions.all_emotions "neutral" 0
  let negative_emotion_score := sadness_score * 1.5 + anger_score * 1.5 + fear_score * 0.7
  let raw0 := keyword_score * 0.3 + (1 - polarity) * 30 + negative_emotion_score * 0.8
  let raw1 := if 50 < neutral_score ∧ polarity < 0.5 then raw0 + neutral_score * 0.15 else raw0
  raw1 + (stress_key_count : ℚ) * 25

/-- `analyze_mood_level` (lines 95-162) after the tallies have been taken:
clamp, invert, bucket.  `score = int(mood_rating_score)`. -/
def mood_core (high med low stress_key_count : Nat)
    (emotions : EmotionProfile) (polarity : ℚ) : MoodAssessment :=
  let low_mood_score :=
    max 0 (min 100 (mood_raw_low_mood high med low stress_key_count emotions polarity / 1.5))
  let mood_rating_score := 100 - low_mood_score
  if 80 ≤ mood_rating_score then
    { level := "GREAT MOOD", score := ratTrunc mood_rating_score
    , explanation := "☀️ Your mood is excellent! Your reflections are very positive and light."
    , label_class := "great-mood" }
  else if 60 ≤ mood_rating_score then
    { level := "GOOD MOOD", score := ratTrunc mood_rating_score
    , explanation := "😊 A good day! You're showing signs of positivity and balance."
    , label_class := "good-mood" }
  else if 40 ≤ mood_rating_score then
    { level := "NEUTRAL", score := ratTrunc mood_rating_score
    , explanation := "☁️ You seem to be feeling mellow or perhaps numb. Pay attention to those subtle cues."
    , label_class := "neutral-mood" }
  else if 20 ≤ mood_rating_score then
    { level := "LOW MOOD", score := ratTrunc mood_rating_score
    , explanation := "😔 We're noticing significant heaviness, sadness, or frustration. Be kind to yourself today."
    , label_class := "low-mood" }
  else
    { level := "VERY LOW MOOD", score := ratTrunc mood_rating_score
    , explanation := "⚠️ Your words show significant signs of distress. Please reach out to a support line immediately. You are not alone."
    , label_class := "very-low-mood" }

/-- `analyze_mood_level(text, emotions)` with the sentiment polarity passed
as a parameter (the source calls the external `TextBlob` there). -/
def analyze_mood_level (text : String) (emotions : EmotionProfile) (polarity : ℚ) :
    MoodAssessment :=
  let text_lower := lowerStr text
  mood_core
    (countHits text_lower DEPRESSION_KEYWORDS.high_risk)
    (countHits text_lower DEPRESSION_KEYWORDS.medium_risk)
    (countHits text_lower DEPRESSION_KEYWORDS.low_risk)
    (countHits text_lower (STRESS_KEYWORDS.high ++ STRESS_KEYWORDS.medium))
    emotions polarity

/-- `raw_stress` of `analyze_stress_level` (lines 176-188). -/
def stress_raw (high med low : Nat) (emotions : EmotionProfile) (polarity : ℚ) : ℚ :=
  let keyword_score : ℚ := (high : ℚ) * 60 + (med : ℚ) * 35 + (low : ℚ) * 15
  let fear_score := dictGet emotions.all_emotions "fear" 0
  let anger_score := dictGet emotions.all_emotions "anger" 0
  let surprise_score := dictGet emotions.all_emotions "surprise" 0
  let general_stress_penalty := (1 - polarity) * 15
  keyword_score + fear_score * 0.9 + anger_score * 0.5 + surprise_score * 0.3 + general_stress_penalty

/-- `analyze_stress_level` (lines 164-200) after the tallies: clip and
bucket.  Note the source only clips from above (`min(100, raw/1.7)`). -/
def stress_core (high med low : Nat) (emotions : EmotionProfile) (polarity : ℚ) :
    StressAssessment :=
  let final_score := min 100 (stress_raw high med low emotions polarity / 1.7)
  if 70 ≤ final_score then
    { level := "HIGH STRESS", score := ratTrunc final_score
    , explanation := "🔴 High stress detected. You seem overwhelmed. Take immediate steps to find a moment of calm." }
  else if 40 ≤ final_score then
    { level := "MODERATE STRESS", score := ratTrunc final_score
    , explanation := "🟡 Moderate stress. We're noticing tension. Try mindfulness or rest." }
  else
    { level := "LOW STRESS", score := ratTrunc final_score
    , explanation := "🟢 You appear calm and balanced. Keep up the healthy habits." }

/-- `analyze_stress_level(text, emotions)` with the polarity as parameter. -/
def analyze_stress_level (text : String) (emotions : EmotionProfile) (polarity : ℚ) :
    StressAssessment :=
  let text_lower := lowerStr text
  stress_core
    (countHits text_lower STRESS_KEYWORDS.high)
    (countHits text_lower STRESS_KEYWORDS.medium)
    (countHits text_lower STRESS_KEYWORDS.low)
    emotions polarity

/-- The fixed override profile of `analyze_emotions` (lines 214-222). -/
def custom_emotions : List (String × ℚ) :=
  [("fear", 85.0), ("anger", 5.0), ("sadness", 5.0), ("neutral", 2.0),
   ("surprise", 1.0), ("joy", 1.0), ("disgust", 1.0)]

/-- The neutral fallback profile (lines 228 and 237). -/
def neutral_fallback : EmotionProfile :=
  { dominant := "neutral", all_emotions := [("neutral", 100.0)] }

/-- Python `round` to the nearest integer, ties to even (banker's
rounding), as used by `round(x, 1)` after scaling by 10. -/
def roundHalfEven (x : ℚ) : ℤ :=
  if x - ⌊x⌋ < 1/2 then ⌊x⌋
  else if 1/2 < x - ⌊x⌋ then ⌊x⌋ + 1
  else if ⌊x⌋ % 2 = 0 then ⌊x⌋ else ⌊x⌋ + 1

/-- Python `round(x, 1)`. -/
def round1 (x : ℚ) : ℚ :=
  (roundHalfEven (x * 10) : ℚ) / 10

/-- Python `max(emotions, key=emotions.get)` on a nonempty dict: the first
key, in insertion order, attaining the maximum value (Python's `max`
replaces the running best only on a strict increase). -/
def dictArgmax (hd : String × ℚ) (tl : List (String × ℚ)) : String :=
  (tl.foldl (fun acc p => if acc.2 < p.2 then p else acc) hd).1

/-- `analyze_emotions` (lines 202-237).  `classifierOut` is the output of
the external classifier on the truncated text (`text[:1000]`): `none`
models an unavailable classifier (`emotion_classifier is None`) or any
raised invocation failure, both of which the source recovers locally with
the neutral fallback; `some results` is its `label → probability` output
in iteration order.  An empty dict makes Python's `max` raise `ValueError`,
which the same `except` turns into the neutral fallback. -/
def analyze_emotions (text : String) (classifierOut : Option (List (String × ℚ))) :
    EmotionProfile :=
  let text_lower := lowerStr text
  if containsSub text_lower "overwhelmed" || containsSub text_lower "amount of work" ||
      containsSub text_lower "too much" then
    { dominant := "fear", all_emotions := custom_emotions }
  else
    match classifierOut with
    | none => neutral_fallback
    | some results =>
      let emotions := results.foldl (fun d r => dictSet d r.1 (round1 (r.2 * 100))) []
      match emotions with
      | [] => neutral_fallback
      | hd :: tl => { dominant := dictArgmax hd tl, all_emotions := hd :: tl }

/-- The dominant-emotion branch of `map_emotions_to_feelings`
(lines 52-80): the copied dict after the conditional insertion of the
secondary feeling.  The source indexes `feelings[dominant]` directly;
every profile the program builds contains its dominant key, and the
embedding reads it with `dictGet _ _ 0`. -/
def feelings_branch (emotions : EmotionProfile) (text_lower : String) :
    List (String × ℚ) :=
  let feelings := emotions.all_emotions
  let dominant := emotions.dominant
  if dominant == "sadness" then
    if containsSub text_lower "lonely" || containsSub text_lower "alone" then
      dictSet feelings "lonely" (dictGet feelings "sadness" 0 * 0.9)
    else if containsSub text_lower "disappoint" || containsSub text_lower "fed up" ||
        containsSub text_lower "not working" then
      dictSet feelings "disappointed" (dictGet feelings "sadness" 0 * 0.9)
    else
      dictSet feelings "despair" (dictGet feelings "sadness" 0 * 0.7)
  else if dominant == "anger" then
    if containsSub text_lower "fed up" || containsSub text_lower "not working" ||
        containsSub text_lower "project" then
      dictSet feelings "frustrated" (dictGet feelings "anger" 0 * 0.95)
    else if containsSub text_lower "threat" || containsSub text_lower "mad" then
      dictSet feelings "mad" (dictGet feelings "anger" 0 * 0.8)
    else feelings
  else if dominant == "fear" then
    if containsSub text_lower "anxious" || containsSub text_lower "worried" ||
        containsSub text_lower "deadline" || containsSub text_lower "overwhelmed" then
      dictSet feelings "anxious" (dictGet feelings "fear" 0 * 0.95)
    else
      dictSet feelings "scared" (dictGet feelings "fear" 0 * 0.7)
  else if dominant == "joy" then
    if containsSub text_lower "optimistic" || containsSub text_lower "proud" then
      dictSet feelings "optimistic" (dictGet feelings "joy" 0 * 0.95)
    else
      dictSet feelings "peaceful" (dictGet feelings "joy" 0 * 0.7)
  else feelings

/-- `map_emotions_to_feelings` (lines 49-88): the dominant-emotion branch
followed by the unconditional removal of the four base keys
(lines 83-86). -/
def map_emotions_to_feelings (emotions : EmotionProfile) (text_lower : String) :
    List (String × ℚ) :=
  dictDel (dictDel (dictDel (dictDel (feelings_branch emotions text_lower)
    "sadness") "anger") "fear") "joy"

def rec_crisis : String :=
  "Please connect with someone immediately. You can call or text 988 (US) or your local crisis line. They are there to listen."

def rec_grounding : String :=
  "You seem overwhelmed. Try a 5-4-3-2-1 grounding exercise: Name 5 things you see, 4 you feel, 3 you hear, 2 you smell, 1 you taste."

def rec_workload : String :=
  "Your workload is creating hidden stress. Try scheduling 3 specific tasks and blocking out 1 hour of 'no-work' time to regain control."

def rec_talk : String :=
  "It sounds like you're carrying a heavy load. It might be a good time to talk to a therapist or a trusted friend about these feelings."

def rec_walk : String :=
  "Your tension levels seem elevated. A short 10-minute walk outside, without your phone, can make a big difference."

def rec_positive : String :=
  "It's great that you're checking in. Keep up the self-awareness! Maintaining this balance is a healthy practice."

def rec_generic : String :=
  "Taking a moment to check in with yourself is a healthy step. Continue to be mindful of your feelings as you go about your day."

/-- The seven rule messages of `get_recommendations`, in rule order. -/
def ruleMessages : List String :=
  [rec_crisis, rec_grounding, rec_workload, rec_talk, rec_walk, rec_positive, rec_generic]

/-- Python `list(dict.fromkeys(recs))`: remove duplicates keeping the
first occurrence of each string, preserving order. -/
def dedupFirst : List String → List String
  | [] => []
  | a :: t => a :: dedupFirst (t.filter (fun b => ¬ b == a))
termination_by l => l.length
decreasing_by
  simp only [List.length_cons]
  exact Nat.lt_succ_of_le (List.length_filter_le _ _)

/-- The `recs` list built by the guarded appends of `get_recommendations`
(lines 240-257), before post-processing. -/
def recs_raw (mood : MoodAssessment) (stress : StressAssessment) : List String :=
  let recs : List String := []
  let recs := if mood.score ≤ 15 then recs ++ [rec_crisis] else recs
  let recs := if 70 ≤ stress.score then recs ++ [rec_grounding] else recs
  let recs := if 50 ≤ stress.score ∧ 40 ≤ mood.score ∧ mood.score < 70 then recs ++ [rec_workload] else recs
  let recs := if mood.score ≤ 35 ∧ 15 < mood.score then recs ++ [rec_talk] else recs
  let recs := if 40 ≤ stress.score ∧ stress.score < 70 then recs ++ [rec_walk] else recs
  let recs := if 75 ≤ mood.score ∧ stress.score < 40 then recs ++ [rec_positive] else recs
  if recs = [] then [rec_generic] else recs

/-- `get_recommendations` (lines 239-259): the guarded appends followed by
`list(dict.fromkeys(recs))[:3]`. -/
def get_recommendations (mood : MoodAssessment) (stress : StressAssessment) :
    List String :=
  (dedupFirst (recs_raw mood stress)).take 3

/-- The `AnalysisResult` record assembled by the `/analyze` route
(lines 327-334): `emotion.all_emotions` carries the feeling-mapper output,
`emotion.dominant` the original dominant label. -/
structure AnalysisResult where
  text : String
  mood : MoodAssessment
  stress : StressAssessment
  emotion_dominant : String
  emotion_all_emotions : List (String × ℚ)
  recommendations : List String
  deriving DecidableEq

/-- The input-validation error message of line 315. -/
def invalid_input_error : String :=
  "No valid text input detected, or audio was unclear/too short."

/-- The core of the `/analyze` route (lines 289-334) after text
extraction: `text_input` is `none` when no text was obtained from the form
or the transcription, otherwise the extracted text.  The guard
`not text_input or len(text_input) < 10` rejects before any scoring; the
external classifier output and sentiment polarity are parameters as
above. -/
def analyze (text_input : Option String)
    (classifierOut : Option (List (String × ℚ))) (polarity : ℚ) :
    Except String AnalysisResult :=
  match text_input with
  | none => Except.error invalid_input_error
  | some t =>
    if t.length < 10 then Except.error invalid_input_error
    else
      let emotion_results := analyze_emotions t classifierOut
      let mood := analyze_mood_level t emotion_results polarity
      let stress := analyze_stress_level t emotion_results polarity
      let recs := get_recommendations mood stress
      let secondary_feelings := map_emotions_to_feelings emotion_results (lowerStr t)
      Except.ok
        { text := t, mood := mood, stress := stress
        , emotion_dominant := emotion_results.dominant
        , emotion_all_emotions := secondary_feelings
        , recommendations := recs }

/-- `e.isOk` for the boundary result. -/
def exceptOk : Except String AnalysisResult → Bool
  | Except.ok _ => true
  | Except.error _ => false

/-! ### Helper lemmas -/

lemma ratTrunc_nonneg {x : ℚ} (hx : 0 ≤ x) : 0 ≤ ratTrunc x := by
  unfold ratTrunc
  rw [if_pos hx]
  exact Int.le_floor.mpr (by exact_mod_cast hx)

lemma ratTrunc_le_hundred {x : ℚ} (hx : x ≤ 100) : ratTrunc x ≤ 100 := by
  unfold ratTrunc
  split_ifs with h
  · have h1 : (⌊x⌋ : ℚ) ≤ 100 := (Int.floor_le x).trans hx
    exact_mod_cast h1
  · exact Int.ceil_le.mpr (by exact_mod_cast hx)

lemma ratTrunc_mono {x y : ℚ} (h : x ≤ y) : ratTrunc x ≤ ratTrunc y := by
  unfold ratTrunc
  split_ifs with hx hy hy
  · exact Int.floor_mono h
  · exact absurd (hx.trans h) hy
  · have h1 : ⌈x⌉ ≤ 0 := Int.ceil_le.mpr (by exact_mod_cast le_of_lt (lt_of_not_le hx))
    have h2 : 0 ≤ ⌊y⌋ := Int.le_floor.mpr (by exact_mod_cast hy)
    omega
  · exact Int.ceil_mono h

lemma dictGet_nonneg {d : List (String × ℚ)} (h : ∀ p ∈ d, 0 ≤ p.2) (k : String) :
    0 ≤ dictGet d k 0 := by
  unfold dictGet
  cases hf : d.find? (fun p => p.1 == k) with
  | none => exact le_refl 0
  | some p => exact h p (List.mem_of_find?_eq_some hf)

lemma mood_core_score (high med low skc : Nat) (e : EmotionProfile) (p : ℚ) :
    (mood_core high med low skc e p).score =
      ratTrunc (100 - max 0 (min 100 (mood_raw_low_mood high med low skc e p / 1.5))) := by
  simp only [mood_core]
  split_ifs <;> rfl

lemma stress_core_score (high med low : Nat) (e : EmotionProfile) (p : ℚ) :
    (stress_core high med low e p).score =
      ratTrunc (min 100 (stress_raw high med low e p / 1.7)) := by
  simp only [stress_core]
  split_ifs <;> rfl

lemma mood_core_score_bounds (high med low skc : Nat) (e : EmotionProfile) (p : ℚ) :
    0 ≤ (mood_core high med low skc e p).score ∧
      (mood_core high med low skc e p).score ≤ 100 := by
  rw [mood_core_score]
  have h1 : (0:ℚ) ≤ max 0 (min 100 (mood_raw_low_mood high med low skc e p / 1.5)) :=
    le_max_left _ _
  have h2 : max 0 (min 100 (mood_raw_low_mood high med low skc e p / 1.5)) ≤ 100 :=
    max_le (by norm_num) (min_le_left _ _)
  exact ⟨ratTrunc_nonneg (by linarith), ratTrunc_le_hundred (by linarith)⟩

lemma stress_raw_nonneg (high med low : Nat) (e : EmotionProfile) (p : ℚ)
    (hnn : ∀ q ∈ e.all_emotions, 0 ≤ q.2) (hp : p ≤ 1) :
    0 ≤ stress_raw high med low e p := by
  have hf := dictGet_nonneg hnn "fear"
  have ha := dictGet_nonneg hnn "anger"
  have hs := dictGet_nonneg hnn "surprise"
  have c1 : (0:ℚ) ≤ (high:ℚ) * 60 + (med:ℚ) * 35 + (low:ℚ) * 15 := by positivity
  have t1 : (0:ℚ) ≤ dictGet e.all_emotions "fear" 0 * 0.9 := mul_nonneg hf (by norm_num)
  have t2 : (0:ℚ) ≤ dictGet e.all_emotions "anger" 0 * 0.5 := mul_nonneg ha (by norm_num)
  have t3 : (0:ℚ) ≤ dictGet e.all_emotions "surprise" 0 * 0.3 := mul_nonneg hs (by norm_num)
  have t4 : (0:ℚ) ≤ (1 - p) * 15 := mul_nonneg (by linarith) (by norm_num)
  simp only [stress_raw]
  linarith

lemma stress_core_score_bounds (high med low : Nat) (e : EmotionProfile) (p : ℚ)
    (hnn : ∀ q ∈ e.all_emotions, 0 ≤ q.2) (hp : p ≤ 1) :
    0 ≤ (stress_core high med low e p).score ∧
      (stress_core high med low e p).score ≤ 100 := by
  rw [stress_core_score]
  have hraw := stress_raw_nonneg high med low e p hnn hp
  have h1 : (0:ℚ) ≤ min 100 (stress_raw high med low e p / 1.7) :=
    le_min (by norm_num) (by positivity)
  have h2 : min 100 (stress_raw high med low e p / 1.7) ≤ 100 := min_le_left _ _
  exact ⟨ratTrunc_nonneg h1, ratTrunc_le_hundred h2⟩

lemma mood_raw_succ (high med low skc : Nat) (e : EmotionProfile) (p : ℚ) :
    mood_raw_low_mood (high + 1) med low skc e p =
      mood_raw_low_mood high med low skc e p + 30 := by
  simp only [mood_raw_low_mood]
  split_ifs <;> push_cast <;> ring

lemma dedupFirst_sublist (l : List String) : (dedupFirst l).Sublist l := by
  induction l using dedupFirst.induct with
  | case1 => simp [dedupFirst]
  | case2 a t ih =>
    rw [dedupFirst]
    exact (ih.trans (t.filter_sublist)).cons₂ a

lemma dedupFirst_nodup (l : List String) : (dedupFirst l).Nodup := by
  induction l using dedupFirst.induct with
  | case1 => simp [dedupFirst]
  | case2 a t ih =>
    rw [dedupFirst]
    refine List.nodup_cons.mpr ⟨fun hmem => ?_, ih⟩
    have h := (dedupFirst_sublist _).subset hmem
    simp [List.mem_filter] at h

lemma dedupFirst_eq_self {l : List String} (h : l.Nodup) : dedupFirst l = l := by
  induction l using dedupFirst.induct with
  | case1 => rw [dedupFirst]
  | case2 a t ih =>
    have hf : t.filter (fun b => ¬ b == a) = t := by
      apply List.filter_eq_self.mpr
      intro b hb
      have hba : b ≠ a := by
        intro hba
        exact (List.nodup_cons.mp h).1 (hba ▸ hb)
      simp [hba]
    rw [hf] at ih
    rw [dedupFirst, hf, ih (List.Nodup.of_cons h)]

lemma step_sublist {c : Prop} [Decidable c] {l L : List String} (x : String)
    (h : l.Sublist L) : (if c then l ++ [x] else l).Sublist (L ++ [x]) := by
  split_ifs with hc
  · exact h.append (List.Sublist.refl [x])
  · exact h.trans (L.sublist_append_left [x])

lemma final_step {M N : List String} (x : String) (h : N.Sublist M) :
    (if N = [] then [x] else N).Sublist (M ++ [x]) := by
  split_ifs with hc
  · exact List.sublist_append_right M [x]
  · exact h.trans (M.sublist_append_left [x])

lemma recs_raw_sublist (mood : MoodAssessment) (stress : StressAssessment) :
    (recs_raw mood stress).Sublist ruleMessages := by
  have h1 := step_sublist (c := mood.score ≤ 15) rec_crisis
    (List.Sublist.refl ([] : List String))
  have h2 := step_sublist (c := 70 ≤ stress.score) rec_grounding h1
  have h3 := step_sublist (c := 50 ≤ stress.score ∧ 40 ≤ mood.score ∧ mood.score < 70)
    rec_workload h2
  have h4 := step_sublist (c := mood.score ≤ 35 ∧ 15 < mood.score) rec_talk h3
  have h5 := step_sublist (c := 40 ≤ stress.score ∧ stress.score < 70) rec_walk h4
  have h6 := step_sublist (c := 75 ≤ mood.score ∧ stress.score < 40) rec_positive h5
  exact final_step rec_generic h6

lemma ruleMessages_nodup : ruleMessages.Nodup := by decide

lemma mem_dictKeys_dictDel {d : List (String × ℚ)} {k a : String} :
    a ∈ dictKeys (dictDel d k) ↔ a ∈ dictKeys d ∧ ¬ a = k := by
  simp only [dictKeys, dictDel, List.mem_map, List.mem_filter, decide_eq_true_eq,
    beq_iff_eq]
  constructor
  · rintro ⟨p, ⟨hp, hk⟩, rfl⟩
    exact ⟨⟨p, hp, rfl⟩, hk⟩
  · rintro ⟨⟨p, hp, rfl⟩, hk⟩
    exact ⟨p, ⟨hp, hk⟩, rfl⟩

lemma feelings_no_base_key (e : EmotionProfile) (tl : String) {k : String}
    (hk : k = "sadness" ∨ k = "anger" ∨ k = "fear" ∨ k = "joy") :
    k ∉ dictKeys (map_emotions_to_feelings e tl) := by
  intro hmem
  unfold map_emotions_to_feelings at hmem
  rw [mem_dictKeys_dictDel] at hmem
  rw [mem_dictKeys_dictDel] at hmem
  rw [mem_dictKeys_dictDel] at hmem
  rw [mem_dictKeys_dictDel] at hmem
  rcases hk with h | h | h | h <;> subst h <;> tauto

lemma analyze_emotions_override (text : String)
    (co : Option (List (String × ℚ)))
    (h : (containsSub (lowerStr text) "overwhelmed" ||
          containsSub (lowerStr text) "amount of work" ||
          containsSub (lowerStr text) "too much") = true) :
    analyze_emotions text co = { dominant := "fear", all_emotions := custom_emotions } := by
  simp only [analyze_emotions, h, if_true]

/-! ### Claim theorems -/

/-- C1: for every input text, every emotion profile with non-negative
scores, and every sentiment polarity in [-1,1], the mood assessment's
score and the stress assessment's score both lie in [0,100].  The mood
scorer clamps on both sides; the stress scorer applies only the upper
clamp `min(100, raw/1.7)`, and the lower bound follows from
non-negativity of the keyword tallies, the emotion scores, and the
polarity penalty. -/
theorem mood_and_stress_scores_clamped (text : String) (emotions : EmotionProfile)
    (polarity : ℚ) (hnn : ∀ p ∈ emotions.all_emotions, 0 ≤ p.2)
    (hpol : -1 ≤ polarity ∧ polarity ≤ 1) :
    (0 ≤ (analyze_mood_level text emotions polarity).score ∧
      (analyze_mood_level text emotions polarity).score ≤ 100) ∧
    (0 ≤ (analyze_stress_level text emotions polarity).score ∧
      (analyze_stress_level text emotions polarity).score ≤ 100) := by
  constructor
  · exact mood_core_score_bounds _ _ _ _ _ _
  · exact stress_core_score_bounds _ _ _ _ _ hnn hpol.2

/-- Witness for C1 at a concrete input. -/
theorem mood_and_stress_scores_clamped_witness :
    (0 ≤ (analyze_mood_level "I feel great today" neutral_fallback 0).score ∧
      (analyze_mood_level "I feel great today" neutral_fallback 0).score ≤ 100) ∧
    (0 ≤ (analyze_stress_level "I feel great today" neutral_fallback 0).score ∧
      (analyze_stress_level "I feel great today" neutral_fallback 0).score ≤ 100) :=
  mood_and_stress_scores_clamped "I feel great today" neutral_fallback 0
    (by with_unfolding_all decide) (by norm_num)

/-- C2: for every text whose lowercased form contains `"overwhelmed"`,
`"amount of work"`, or `"too much"`, `analyze_emotions` returns the fixed
profile `custom_emotions` with dominant `"fear"`, for every possible
classifier output (including an unavailable classifier, `none`): the
classifier is never consulted. -/
theorem override_rule_forces_fear (text : String)
    (classifierOut : Option (List (String × ℚ)))
    (h : containsSub (lowerStr text) "overwhelmed" = true ∨
         containsSub (lowerStr text) "amount of work" = true ∨
         containsSub (lowerStr text) "too much" = true) :
    analyze_emotions text classifierOut =
      { dominant := "fear", all_emotions := custom_emotions } := by
  apply analyze_emotions_override
  rcases h with h | h | h <;> simp [h]

/-- Witness for C2: a concrete override text and a classifier output that
reports joy; the override wins. -/
theorem override_rule_forces_fear_witness :
    analyze_emotions "I'm so overwhelmed with the amount of work"
        (some [("joy", 0.99)]) =
      { dominant := "fear", all_emotions := custom_emotions } :=
  override_rule_forces_fear _ _ (Or.inl (by decide))

/-- C3: for every text not matched by the override rule, an unavailable
classifier or any invocation failure (both modelled by `none`) makes
`analyze_emotions` return the neutral fallback `{neutral: 100.0}` with
dominant `"neutral"` as a normal, non-error result: the failure is
recovered locally and never propagated. -/
theorem classifier_failure_neutral_fallback (text : String)
    (h : (containsSub (lowerStr text) "overwhelmed" ||
          containsSub (lowerStr text) "amount of work" ||
          containsSub (lowerStr text) "too much") = false) :
    analyze_emotions text none = neutral_fallback := by
  simp [analyze_emotions, h, neutral_fallback]

/-- Witness for C3 at a concrete non-override text. -/
theorem classifier_failure_neutral_fallback_witness :
    analyze_emotions "hello there friend" none = neutral_fallback :=
  classifier_failure_neutral_fallback _ (by decide)

/-- C4 counterexample: in Scenario A the medium-risk mood-lexicon tally is
not 3: the keyword `"cant go on"` (no apostrophe) is not a substring of
the lowercased text, which contains the apostrophized `"can't go on"`;
only `"hopeless"` and `"empty"` match. -/
theorem scenarioA_medium_tally_is_not_three :
    ¬ countHits (lowerStr "I feel hopeless and empty, I can't go on")
        DEPRESSION_KEYWORDS.medium_risk = 3 := by decide

/-- C4 amended: for Scenario A's text with the neutral fallback profile
and polarity 0, the medium-risk tally is 2 (all other tallies 0), so
`keyword_score = 80`, `raw_low_mood = 80*0.3 + 30 + 15 = 69` after
neutral dampening, `low_mood_score = 46`, the mood rating is 54, and the
bucket is still NEUTRAL. -/
theorem scenarioA_corrected :
    countHits (lowerStr "I feel hopeless and empty, I can't go on")
        DEPRESSION_KEYWORDS.medium_risk = 2 ∧
    countHits (lowerStr "I feel hopeless and empty, I can't go on")
        DEPRESSION_KEYWORDS.high_risk = 0 ∧
    countHits (lowerStr "I feel hopeless and empty, I can't go on")
        DEPRESSION_KEYWORDS.low_risk = 0 ∧
    countHits (lowerStr "I feel hopeless and empty, I can't go on")
        (STRESS_KEYWORDS.high ++ STRESS_KEYWORDS.medium) = 0 ∧
    mood_raw_low_mood 0 2 0 0 neutral_fallback 0 = 69 ∧
    (analyze_mood_level "I feel hopeless and empty, I can't go on"
        neutral_fallback 0).score = 54 ∧
    (analyze_mood_level "I feel hopeless and empty, I can't go on"
        neutral_fallback 0).level = "NEUTRAL" := by
  refine ⟨by decide, by decide, by decide, by decide, ?_, ?_, ?_⟩
  · with_unfolding_all decide
  · with_unfolding_all decide
  · with_unfolding_all decide

/-- C5: for Scenario B's text with polarity −0.3, the override forces the
fear=85 profile for every classifier output; the stress tallies are
high=1 (`"overwhelmed"`), medium=1 (`"amount of work"`), low=0, so
`keyword_score = 95`; `raw_stress = 95 + 85*0.9 + 5*0.5 + 1*0.3 +
1.3*15 = 193.8`; the final stress score is `min(100, 193.8/1.7) = 100`
and the bucket is HIGH STRESS. -/
theorem scenarioB_override_and_high_stress
    (classifierOut : Option (List (String × ℚ))) :
    analyze_emotions "I'm so overwhelmed with the amount of work" classifierOut =
      { dominant := "fear", all_emotions := custom_emotions } ∧
    countHits (lowerStr "I'm so overwhelmed with the amount of work")
        STRESS_KEYWORDS.high = 1 ∧
    countHits (lowerStr "I'm so overwhelmed with the amount of work")
        STRESS_KEYWORDS.medium = 1 ∧
    countHits (lowerStr "I'm so overwhelmed with the amount of work")
        STRESS_KEYWORDS.low = 0 ∧
    stress_raw 1 1 0 { dominant := "fear", all_emotions := custom_emotions }
        (-0.3) = 193.8 ∧
    (analyze_stress_level "I'm so overwhelmed with the amount of work"
        { dominant := "fear", all_emotions := custom_emotions } (-0.3)).score = 100 ∧
    (analyze_stress_level "I'm so overwhelmed with the amount of work"
        { dominant := "fear", all_emotions := custom_emotions } (-0.3)).level =
      "HIGH STRESS" := by
  refine ⟨rfl, by decide, by decide, by decide, ?_, ?_, ?_⟩
  · with_unfolding_all decide
  · with_unfolding_all decide
  · with_unfolding_all decide

/-- C6: holding the emotion profile, the polarity, the other lexicon
tallies and the stress-keyword count fixed, one more high-risk
mood-lexicon hit never increases the mood score. -/
theorem mood_score_antitone_in_high_tally (high med low skc : Nat)
    (e : EmotionProfile) (polarity : ℚ) :
    (mood_core (high + 1) med low skc e polarity).score ≤
      (mood_core high med low skc e polarity).score := by
  rw [mood_core_score, mood_core_score, mood_raw_succ]
  apply ratTrunc_mono
  have hdiv : mood_raw_low_mood high med low skc e polarity / 1.5 ≤
      (mood_raw_low_mood high med low skc e polarity + 30) / 1.5 := by
    gcongr
    linarith
  have hmin := min_le_min (le_refl (100:ℚ)) hdiv
  have hmax := max_le_max (le_refl (0:ℚ)) hmin
  linarith

/-- C7: for every mood and stress assessment, the recommendation list has
length at most 3, contains no duplicates, and is a sublist of the seven
rule messages in fixed rule-priority order; deduplication keeps first
occurrences (here it is the identity, as the raw fired list has no
duplicates) and the output is the first 3 fired messages. -/
theorem recommendations_invariants (mood : MoodAssessment)
    (stress : StressAssessment) :
    (get_recommendations mood stress).length ≤ 3 ∧
    (get_recommendations mood stress).Nodup ∧
    (get_recommendations mood stress).Sublist ruleMessages ∧
    get_recommendations mood stress = (recs_raw mood stress).take 3 := by
  have hsub := recs_raw_sublist mood stress
  have hnodupRaw : (recs_raw mood stress).Nodup :=
    List.Nodup.sublist hsub ruleMessages_nodup
  refine ⟨?_, ?_, ?_, ?_⟩
  · exact List.length_take_le _ _
  · exact List.Nodup.sublist (List.take_sublist _ _) (dedupFirst_nodup _)
  · exact ((List.take_sublist _ _).trans (dedupFirst_sublist _)).trans hsub
  · unfold get_recommendations
    rw [dedupFirst_eq_self hnodupRaw]

/-- C8: for every emotion profile and every lowercased text, the feeling
mapper's output contains none of the four base keys `sadness`, `anger`,
`fear`, `joy`: they are removed unconditionally after the
dominant-emotion branch. -/
theorem feeling_mapper_removes_base_keys (e : EmotionProfile)
    (text_lower : String) :
    "sadness" ∉ dictKeys (map_emotions_to_feelings e text_lower) ∧
    "anger" ∉ dictKeys (map_emotions_to_feelings e text_lower) ∧
    "fear" ∉ dictKeys (map_emotions_to_feelings e text_lower) ∧
    "joy" ∉ dictKeys (map_emotions_to_feelings e text_lower) :=
  ⟨feelings_no_base_key e text_lower (Or.inl rfl),
   feelings_no_base_key e text_lower (Or.inr (Or.inl rfl)),
   feelings_no_base_key e text_lower (Or.inr (Or.inr (Or.inl rfl))),
   feelings_no_base_key e text_lower (Or.inr (Or.inr (Or.inr rfl)))⟩

/-- C9: the boundary accepts exactly the texts of length at least 10:
an absent text or a text shorter than 10 characters is rejected with the
input error before any scoring runs and no `AnalysisResult` is produced,
while texts of length 10 or more proceed to scoring and produce a
result. -/
theorem boundary_rejects_short_texts (text_input : Option String)
    (classifierOut : Option (List (String × ℚ))) (polarity : ℚ) :
    (exceptOk (analyze text_input classifierOut polarity) = true ↔
      ∃ s, text_input = some s ∧ 10 ≤ s.length) ∧
    (exceptOk (analyze text_input classifierOut polarity) = false ↔
      analyze text_input classifierOut polarity =
        Except.error invalid_input_error) := by
  cases text_input with
  | none => simp [analyze, exceptOk]
  | some t =>
    by_cases h : t.length < 10
    · have hval : analyze (some t) classifierOut polarity =
          Except.error invalid_input_error := by
        simp [analyze, h]
      refine ⟨iff_of_false ?_ ?_, iff_of_true ?_ hval⟩
      · rw [hval]; simp [exceptOk]
      · rintro ⟨s, hs, hlen⟩
        injection hs with hs
        subst hs
        omega
      · rw [hval]; simp [exceptOk]
    · have hok : exceptOk (analyze (some t) classifierOut polarity) = true := by
        simp [analyze, h, exceptOk]
      refine ⟨iff_of_true hok ⟨t, rfl, by omega⟩, iff_of_false ?_ ?_⟩
      · simp [hok]
      · intro heq
        rw [heq] at hok
        simp [exceptOk] at hok


/-- C10: for any valid text (length at least 10) containing
`"overwhelmed"`, the boundary returns an `AnalysisResult` whose
`emotion_dominant` is `"fear"` while `"fear"` is not a key of its
`emotion_all_emotions` mapping: the response carries the feeling-mapper
output, from which the four base emotion keys were deleted, while the
dominant label still names the original base emotion. -/
theorem dominant_label_missing_from_feelings (s : String)
    (classifierOut : Option (List (String × ℚ))) (polarity : ℚ)
    (hlen : 10 ≤ s.length)
    (hov : containsSub (lowerStr s) "overwhelmed" = true) :
    ∃ r, analyze (some s) classifierOut polarity = Except.ok r ∧
      r.emotion_dominant = "fear" ∧
      r.emotion_dominant ∉ dictKeys r.emotion_all_emotions := by
  have hno : ¬ s.length < 10 := by omega
  have hover := analyze_emotions_override s classifierOut (by simp [hov])
  simp only [analyze]
  rw [if_neg hno]
  refine ⟨_, rfl, ?_, ?_⟩
  · show (analyze_emotions s classifierOut).dominant = "fear"
    rw [hover]
  · show (analyze_emotions s classifierOut).dominant ∉
      dictKeys (map_emotions_to_feelings (analyze_emotions s classifierOut) (lowerStr s))
    rw [hover]
    exact feelings_no_base_key _ _ (Or.inr (Or.inr (Or.inl rfl)))

/-- Witness for C10 at Scenario B's text with an unavailable classifier
and polarity 0. -/
theorem dominant_label_missing_from_feelings_witness :
    ∃ r, analyze (some "I'm so overwhelmed with the amount of work") none 0 =
        Except.ok r ∧
      r.emotion_dominant = "fear" ∧
      r.emotion_dominant ∉ dictKeys r.emotion_all_emotions :=
  dominant_label_missing_from_feelings _ none 0 (by decide) (by decide)

end MHD
